import Mathlib

/-!
Verification of `streamlit_cvs_app_full.py` (CVS-Predictor): a shallow
embedding of its column-mapping, risk-scoring, chart-derivation and
report-generation logic, with theorems settling the specification's claims.

Python cell values are modelled by `Val` (a string cell or an integer cell,
covering the values the program actually stores); a pandas row / dict is an
association list `Record`; a DataFrame is a `Df` (column list plus rows).
Python's `float()` and `int()` builtins are modelled on the decimal grammar
relevant here (`pyFloat`, `pyInt`), with rationals standing for floats —
none of the verified properties depend on binary rounding. String
manipulation (strip, lower, replace) is modelled on character lists to keep
every definition kernel-evaluable.
-/

namespace CVS

/-! ## Definitions: the shallow embedding of the program -/

/-- A Python value stored in a record cell: a string (form inputs, CSV cells)
or an integer (the `0` default for missing hours, derived numeric columns). -/
inductive Val where
  | s (v : String)
  | i (v : ℤ)
deriving DecidableEq, Repr

/-- One respondent record: an association list from field name to value,
modelling a pandas row / Python dict. A missing key models a missing field
(NaN in pandas). -/
abbrev Record := List (String × Val)

/-- `row.get(k)` / `row.get(k, default)` without the default: first binding
of the key, `none` when absent. -/
def rowGet (r : Record) (k : String) : Option Val := r.lookup k

/-- Python `str()` on a stored value. -/
def pyStr : Val → String
  | .s v => v
  | .i v => toString v

/-- ASCII whitespace stripped by Python `str.strip()` and by `float()`/`int()`
around a literal. -/
def isSpaceChar (c : Char) : Bool :=
  c = ' ' || c = '\t' || c = '\n' || c = '\r' || c = '\x0b' || c = '\x0c'

/-- Python `str.strip()` on a character list: drop whitespace at both ends. -/
def stripChars (l : List Char) : List Char :=
  ((l.dropWhile isSpaceChar).reverse.dropWhile isSpaceChar).reverse

/-- ASCII lower-casing of one character (Python `str.lower()` on the ASCII
inputs the survey uses). -/
def lowerChar (c : Char) : Char :=
  if c.toNat ≥ 65 && c.toNat ≤ 90 then Char.ofNat (c.toNat + 32) else c

/-- Python `str.lower()`. -/
def pyLower (st : String) : String := String.mk (st.toList.map lowerChar)

/-- Python `str.replace(pat, rep)` with a non-empty pattern, fuelled so the
recursion is structural: each step consumes at least one character, so fuel
equal to the input length is always enough and the fuel-exhausted fallback
is unreachable. -/
def replaceCharsFuel (pat rep : List Char) : ℕ → List Char → List Char
  | 0, l => l
  | _, [] => []
  | n + 1, c :: rest =>
    if pat.isPrefixOf (c :: rest) && !pat.isEmpty then
      rep ++ replaceCharsFuel pat rep n (rest.drop (pat.length - 1))
    else
      c :: replaceCharsFuel pat rep n rest

/-- Python `str.replace(pat, rep)` with a non-empty pattern: replace every
leftmost non-overlapping occurrence. -/
def replaceChars (pat rep l : List Char) : List Char :=
  replaceCharsFuel pat rep l.length l

/-- Numeric value of a digit list, most significant first. -/
def digitsVal (l : List Char) : ℕ :=
  l.foldl (fun a c => 10 * a + (c.toNat - 48)) 0

/-- Consume an optional leading sign, returning the sign as an integer. -/
def pySign : List Char → ℤ × List Char
  | '-' :: r => (-1, r)
  | '+' :: r => (1, r)
  | r => (1, r)

/-- The decidable skeleton of a Python float literal: sign, integer-part
value, fraction-part value, fraction length, exponent sign, exponent value —
`none` where `float()` raises `ValueError`. -/
def pyFloatParts (st : String) : Option (ℤ × ℕ × ℕ × ℕ × ℤ × ℕ) :=
  let (sg, t) := pySign (stripChars st.toList)
  let ip := t.takeWhile Char.isDigit
  let t1 := t.dropWhile Char.isDigit
  let fp : List Char :=
    match t1 with
    | '.' :: r => r.takeWhile Char.isDigit
    | _ => []
  let t2 : List Char :=
    match t1 with
    | '.' :: r => r.dropWhile Char.isDigit
    | r => r
  if ip.isEmpty && fp.isEmpty then none
  else
    match t2 with
    | [] => some (sg, digitsVal ip, digitsVal fp, fp.length, 1, 0)
    | 'e' :: r => expParts sg (digitsVal ip) (digitsVal fp) fp.length r
    | 'E' :: r => expParts sg (digitsVal ip) (digitsVal fp) fp.length r
    | _ => none
where
  /-- Parse the exponent digits of a float literal. -/
  expParts (sg : ℤ) (ipv fpv fl : ℕ) (r : List Char) : Option (ℤ × ℕ × ℕ × ℕ × ℤ × ℕ) :=
    let (es, r1) := pySign r
    let ed := r1.takeWhile Char.isDigit
    let r2 := r1.dropWhile Char.isDigit
    if ed.isEmpty || !r2.isEmpty then none
    else some (sg, ipv, fpv, fl, es, digitsVal ed)

/-- The rational denoted by a parsed float literal. -/
def partsVal : ℤ × ℕ × ℕ × ℕ × ℤ × ℕ → ℚ
  | (sg, ipv, fpv, fl, es, ev) =>
    (sg : ℚ) * ((ipv : ℚ) + (fpv : ℚ) / 10 ^ fl) *
      (if es < 0 then ((10 : ℚ) ^ ev)⁻¹ else 10 ^ ev)

/-- Models Python `float(s)` on finite decimal literals: surrounding
whitespace, an optional sign, digits with an optional fractional part, and
an optional exponent — `none` where `float()` raises `ValueError`. (The
special spellings `inf`/`nan` and underscore digit separators are outside
the survey inputs and are not modelled.) -/
def pyFloat (st : String) : Option ℚ := (pyFloatParts st).map partsVal

/-- Python `float(x)` on a stored value: parse a string cell, embed an
integer cell. -/
def pyFloatVal : Val → Option ℚ
  | .s v => pyFloat v
  | .i v => some (v : ℚ)

/-- Digit run with single underscores allowed between digits, as accepted
inside a Python `int()` literal. -/
def pyIntDigits : List Char → Bool
  | [] => false
  | [c] => c.isDigit
  | c :: '_' :: r => c.isDigit && pyIntDigits r
  | c :: r => c.isDigit && pyIntDigits r

/-- Models Python `int(s)` on base-10 literals: surrounding whitespace, an
optional sign, digits with optional underscore separators — `none` where
`int()` raises `ValueError`. -/
def pyInt (st : String) : Option ℤ :=
  let (sg, t) := pySign (stripChars st.toList)
  if pyIntDigits t then some (sg * (digitsVal (t.filter (fun c => c ≠ '_')) : ℤ))
  else none

/-- The five symptom field names of `calculate_risk` / `generate_charts`. -/
def symptoms : List String :=
  ["eye_strain", "blurry_vision", "dry_eyes", "headaches", "neck_pain"]

/-- The risk scorer's per-field symptom indicator:
`str(row.get(s, "No")).lower() in ["yes", "sometimes"]`. -/
def riskSymptomInd (r : Record) (c : String) : ℕ :=
  if pyLower (pyStr ((rowGet r c).getD (.s "No"))) ∈ (["yes", "sometimes"] : List String)
  then 1 else 0

/-- `symptom_count` in `calculate_risk`: how many of the five symptom fields
hold (case-insensitively) "yes" or "sometimes". -/
def symptomCount (r : Record) : ℕ :=
  (symptoms.map (riskSymptomInd r)).sum

/-- The value `float(row.get(k, 0))` contributes for one hours field:
the missing-field default `0` converts to `0.0`; a present value must parse. -/
def hoursField (r : Record) (k : String) : Option ℚ :=
  match rowGet r k with
  | none => some 0
  | some v => pyFloatVal v

/-- The `hours` variable of `calculate_risk`:
`float(row.get("hours_academic", 0)) + float(row.get("hours_non_academic", 0))`
inside `try`, with the bare `except` setting `hours = 0` when either
conversion raises. -/
def hoursSum (r : Record) : ℚ :=
  match hoursField r "hours_academic", hoursField r "hours_non_academic" with
  | some a, some b => a + b
  | _, _ => 0

/-- `calculate_risk(row)`: score `min(hours*10, 50) + symptom_count*10` and
the three-tier risk label. -/
def calculate_risk (r : Record) : ℚ × String :=
  let score : ℚ := min (hoursSum r * 10) 50 + (symptomCount r : ℚ) * 10
  let risk := if score < 30 then "Low" else if score < 60 then "Medium" else "High"
  (score, risk)

/-- `STANDARD_COLUMNS`: the fixed canonical schema of 26 field names. -/
def STANDARD_COLUMNS : List String :=
  ["timestamp", "consent", "age_group", "age", "sex", "grade_level",
   "hours_academic", "hours_non_academic", "devices", "break_frequency",
   "screen_tools", "screen_tools_details", "eye_strain", "blurry_vision",
   "dry_eyes", "headaches", "neck_pain", "symptoms_worse", "lighting",
   "posture", "twenty_rule", "eye_level_screen", "visited_specialist",
   "impact_schoolwork", "mitigation_measures", "school_support_opinion"]

/-- A column mapping: source column name → canonical field name. -/
abbrev Mapping := List (String × String)

/-- `df.rename(columns=m)` on one column name: renamed when the mapping has
the column as a key, kept unchanged otherwise. -/
def renameCol (m : Mapping) (c : String) : String := (m.lookup c).getD c

/-- `df.rename(columns=m)` on one record: every field is kept, under its
(possibly renamed) column name. -/
def renameRecord (m : Mapping) (r : Record) : Record :=
  r.map (fun kv => (renameCol m kv.1, kv.2))

/-- The file system as seen by the mapping persistence layer: the contents
of `google_forms_mapping.json` when the file exists, `none` otherwise.
(JSON round-trips a string-to-string dict faithfully, so the file contents
are modelled as the mapping itself.) -/
abbrev MapStore := Option Mapping

/-- `load_mapping()`: the parsed mapping file when present, `None` when no
file exists. -/
def load_mapping (st : MapStore) : Option Mapping := st

/-- `save_mapping(m)`: rewrites the mapping file wholesale. -/
def save_mapping (m : Mapping) (_ : MapStore) : MapStore := some m

/-- `reset_mapping()`: removes the mapping file if it exists. -/
def reset_mapping (_ : MapStore) : MapStore := none

/-- Python dict / pandas column assignment `d[k] = v`: update the (unique)
existing binding in place when the key exists, append a new binding at the
end otherwise. -/
def dictInsert {β : Type} : List (String × β) → String → β → List (String × β)
  | [], k, v => [(k, v)]
  | kv :: m, k, v => if kv.1 = k then (k, v) :: m else kv :: dictInsert m k v

/-- The interactive mapping construction of `map_google_forms`: for each
canonical field in order, a selectbox choice ("-- skip --" or a source
column), assigned by `mapping[choice] = std_col`. `choices` pairs each
canonical field with its choice, in form order. -/
def build_mapping (choices : List (String × String)) : Mapping :=
  choices.foldl
    (fun m p => if p.2 = "-- skip --" then m else dictInsert m p.2 p.1) []

/-- The last canonical field a given source column was chosen for, if any:
the spec-side description of "the last assignment wins". -/
def lastChosen (choices : List (String × String)) (src : String) : Option String :=
  choices.foldl (fun acc p => if p.2 = src then some p.1 else acc) none

/-- The spec's end-to-end scenario record (§8): 2 + 1 hours, symptoms
Yes / No / Sometimes / No / No. -/
def C1rec : Record :=
  [("hours_academic", .s "2"), ("hours_non_academic", .s "1"),
   ("eye_strain", .s "Yes"), ("blurry_vision", .s "No"),
   ("dry_eyes", .s "Sometimes"), ("headaches", .s "No"), ("neck_pain", .s "No")]

/-- The spec's parse-failure scenario record (§8): non-numeric academic
hours, valid non-academic hours, one symptom. -/
def C4rec : Record :=
  [("hours_academic", .s "abc"), ("hours_non_academic", .s "5"),
   ("eye_strain", .s "Yes")]

/-- A pandas DataFrame: its column list and its rows. A column may be
missing from an individual row (a NaN cell). -/
structure Df where
  columns : List String
  rows : List Record
deriving DecidableEq, Repr

/-- `series.apply(f)` / elementwise conversion where `f` may raise: `none`
as soon as any element raises, the converted list otherwise. -/
def applyOpt {α β : Type} (f : α → Option β) : List α → Option (List β)
  | [] => some []
  | a :: l =>
    match f a, applyOpt f l with
    | some b, some bs => some (b :: bs)
    | _, _ => none

/-- The scatter plot's per-field symptom indicator — it counts only `"yes"`:
`str(r.get(s, "No")).lower() == "yes"`. -/
def chartSymptomInd (r : Record) (c : String) : ℕ :=
  if pyLower (pyStr ((rowGet r c).getD (.s "No"))) = "yes" then 1 else 0

/-- `df['symptom_score']` for one row:
`sum([1 for s in symptom_cols if str(r.get(s, "No")).lower() == "yes"])`. -/
def symptom_score (r : Record) : ℕ :=
  (symptoms.map (chartSymptomInd r)).sum

/-- One row's contribution to the bar chart's count for a symptom column:
`df[col].str.lower() == "yes"` (a missing or non-string cell compares
unequal). -/
def barYes (r : Record) (c : String) : Bool :=
  match rowGet r c with
  | some (.s v) => pyLower v = "yes"
  | _ => false

/-- The symptom-frequency bar chart's count for one symptom column:
`(df[col].str.lower() == "yes").sum()`. -/
def barCount (df : Df) (c : String) : ℕ :=
  (df.rows.filter (fun r => barYes r c)).length

/-- `str(x).replace('+', '').replace('times', '').strip()`: the cleaned
break-frequency cell. -/
def cleanedBreak (v : Val) : String :=
  String.mk (stripChars (replaceChars "times".toList []
    (replaceChars "+".toList [] (pyStr v).toList)))

/-- The break-frequency conversion
`lambda x: 0 if pd.isna(x) else int(str(x).replace('+','').replace('times','').strip())`:
total for a missing cell (0), otherwise `int()` on the cleaned string,
`none` where `int()` raises. -/
def breakNumeric : Option Val → Option ℤ
  | none => some 0
  | some v => pyInt (cleanedBreak v)

/-- The scatter-section mutation of one row: add the
`break_frequency_numeric` column, then the `symptom_score` column. -/
def chartsRow (r : Record) : Option Record :=
  (breakNumeric (rowGet r "break_frequency")).map (fun n =>
    let r1 := dictInsert r "break_frequency_numeric" (.i n)
    dictInsert r1 "symptom_score" (.i (symptom_score r1)))

/-- pandas column registration: a new column name is appended, an existing
one stays in place. -/
def addCol (cols : List String) (c : String) : List String :=
  if cols.contains c then cols else cols ++ [c]

/-- `generate_charts(df)`: the DataFrame as mutated by chart generation.
`none` models an uncaught exception: a required chart column missing
(`df[col]` / `df['devices']` raise KeyError), or a break-frequency cell
whose cleaned string is not an integer literal (`int()` raises). The chart
figures themselves are library objects; the verified content is the derived
data (`barCount`, `symptom_score`, `breakNumeric`) and the mutation. -/
def generate_charts (df : Df) : Option Df :=
  if symptoms.all (fun c => df.columns.contains c) && df.columns.contains "devices" then
    if df.columns.contains "break_frequency" then
      (applyOpt chartsRow df.rows).map (fun rows =>
        { columns := addCol (addCol df.columns "break_frequency_numeric") "symptom_score",
          rows := rows })
    else some df
  else none

/-- One emitted element of the PDF report. -/
inductive PdfLine where
  | title (t : String)
  | header (t : String)
  | avgLine (label : String) (v : Option ℚ)
  | placeholder (t : String)
  | riskLine (name : String) (score : ℚ) (risk : String)
  | chartPage (name : String)

/-- `df[col].astype(float).mean()`: outer `none` when the column is missing
(KeyError) or a present cell fails float conversion (ValueError) — the paths
caught by the `except`; inner `none` models a NaN mean (no non-null cells);
otherwise the skipna mean. -/
def astypeMean (df : Df) (col : String) : Option (Option ℚ) :=
  if df.columns.contains col then
    (applyOpt (fun r =>
        match rowGet r col with
        | none => some none
        | some v => (pyFloatVal v).map some) df.rows).map (fun parsed =>
      let vals := parsed.reduceOption
      if vals.length = 0 then none else some (vals.sum / (vals.length : ℚ)))
  else none

/-- The `try` block of `generate_pdf`: both hours means are computed before
anything is printed, so the whole block falls to the placeholder when either
computation raises. -/
def summaryStats (df : Df) : Option (Option ℚ × Option ℚ) :=
  match astypeMean df "hours_academic", astypeMean df "hours_non_academic" with
  | some a, some b => some (a, b)
  | _, _ => none

/-- The risk line emitted for row `(i, row)`:
`f"{row.get('timestamp', f'Row {i+1}')}: Score={score}, Risk={risk}"`. -/
def riskLine (i : ℕ) (r : Record) : PdfLine :=
  .riskLine (pyStr ((rowGet r "timestamp").getD (.s ("Row " ++ toString (i + 1)))))
    (calculate_risk r).1 (calculate_risk r).2

/-- `generate_pdf(df, charts)` as the sequence of text/image elements it
emits: title, summary-statistics header, the two average lines or the
placeholder, the risk-summary header, one risk line per row, then one page
per chart key (in order). -/
def generate_pdf (df : Df) (charts : List String) : List PdfLine :=
  [.title "Computer Vision Syndrome Survey Report", .header "Summary Statistics:"]
  ++ (match summaryStats df with
      | some (a, b) =>
        [.avgLine "Average Academic Hours" a, .avgLine "Average Non-Academic Hours" b]
      | none => [.placeholder "Average hours not available"])
  ++ [.header "Student Risk Summary:"]
  ++ df.rows.enum.map (fun p => riskLine p.1 p.2)
  ++ charts.map .chartPage

/-- The C7 witness frame: one row whose academic hours are non-numeric. -/
def C7df : Df :=
  ⟨["hours_academic", "hours_non_academic"],
   [[("hours_academic", .s "abc"), ("hours_non_academic", .s "5")]]⟩

/-- The C8 witness frame: all chart columns present, one row. -/
def C8df : Df :=
  ⟨["eye_strain", "blurry_vision", "dry_eyes", "headaches", "neck_pain", "devices",
    "break_frequency"],
   [[("eye_strain", .s "Yes"), ("devices", .s "Phone"),
     ("break_frequency", .s "3+ times")]]⟩

/-- The row of `C8df` as mutated by `generate_charts`: only the two helper
fields are added ("3+ times" converts to 3; one "yes" symptom). -/
def C8row' : Record :=
  [("eye_strain", .s "Yes"), ("devices", .s "Phone"),
   ("break_frequency", .s "3+ times"), ("break_frequency_numeric", .i 3),
   ("symptom_score", .i 1)]

/-- The `C8df` frame as mutated by `generate_charts`. -/
def C8df' : Df :=
  ⟨["eye_strain", "blurry_vision", "dry_eyes", "headaches", "neck_pain", "devices",
    "break_frequency", "break_frequency_numeric", "symptom_score"],
   [C8row']⟩

/-- The C9 witness frame: a break-frequency cell "2x" whose cleaned string
is not an integer literal. -/
def C9df : Df :=
  ⟨["eye_strain", "blurry_vision", "dry_eyes", "headaches", "neck_pain", "devices",
    "break_frequency"],
   [[("break_frequency", .s "2x")]]⟩

/-! ## Theorems -/

/-! ### Lemmas about dict insertion and the interactive construction -/

theorem lookup_dictInsert {β : Type} (m : List (String × β)) (k : String) (v : β)
    (k' : String) :
    (dictInsert m k v).lookup k' = if k' = k then some v else m.lookup k' := by
  induction m with
  | nil =>
    by_cases h : k' = k <;> simp [dictInsert, List.lookup_cons, h, beq_false_of_ne]
  | cons kv m ih =>
    obtain ⟨k1, v1⟩ := kv
    unfold dictInsert
    by_cases h : k1 = k
    · rw [if_pos h]
      by_cases h' : k' = k
      · simp [List.lookup_cons, h, h']
      · have hne : k' ≠ k1 := fun hh => h' (hh.trans h)
        simp [List.lookup_cons, beq_false_of_ne hne, beq_false_of_ne h', h']
    · rw [if_neg h]
      by_cases h' : k' = k1
      · have hne : k' ≠ k := fun hh => h (h'.symm.trans hh)
        simp [List.lookup_cons, h', hne, h]
      · simp [List.lookup_cons, beq_false_of_ne h', ih]

theorem keys_dictInsert {β : Type} (m : List (String × β)) (k : String) (v : β) :
    (dictInsert m k v).map Prod.fst =
      if k ∈ m.map Prod.fst then m.map Prod.fst else m.map Prod.fst ++ [k] := by
  induction m with
  | nil => simp [dictInsert]
  | cons kv m ih =>
    unfold dictInsert
    by_cases h : kv.1 = k
    · rw [if_pos h]
      simp [h]
    · rw [if_neg h]
      simp only [List.map_cons, List.mem_cons, ih]
      by_cases h' : k ∈ m.map Prod.fst
      · rw [if_pos h', if_pos (Or.inr h')]
      · rw [if_neg h', if_neg ?_, List.cons_append]
        rintro (hk | hk)
        · exact h hk.symm
        · exact h' hk

theorem nodup_keys_dictInsert {β : Type} (m : List (String × β)) (k : String) (v : β)
    (h : (m.map Prod.fst).Nodup) : ((dictInsert m k v).map Prod.fst).Nodup := by
  rw [keys_dictInsert]
  split
  · exact h
  · next hk =>
    rw [List.nodup_append]
    refine ⟨h, List.nodup_singleton k, ?_⟩
    intro a ha hb
    simp only [List.mem_singleton] at hb
    exact hk (hb ▸ ha)

theorem build_mapping_lookup_aux (choices : List (String × String)) (src : String)
    (hsrc : src ≠ "-- skip --") (m : Mapping) :
    (choices.foldl (fun m p => if p.2 = "-- skip --" then m else dictInsert m p.2 p.1)
        m).lookup src =
      choices.foldl (fun acc p => if p.2 = src then some p.1 else acc) (m.lookup src) := by
  induction choices generalizing m with
  | nil => rfl
  | cons p rest ih =>
    simp only [List.foldl_cons]
    rw [ih]
    congr 1
    by_cases hskip : p.2 = "-- skip --"
    · rw [if_pos hskip, if_neg (fun hh : p.2 = src => hsrc (hh ▸ hskip))]
    · rw [if_neg hskip, lookup_dictInsert]
      by_cases hs : src = p.2
      · rw [if_pos hs, if_pos hs.symm]
      · rw [if_neg hs, if_neg (fun hh : p.2 = src => hs hh.symm)]

theorem build_mapping_nodup_aux (choices : List (String × String)) (m : Mapping)
    (h : (m.map Prod.fst).Nodup) :
    (((choices.foldl (fun m p => if p.2 = "-- skip --" then m else dictInsert m p.2 p.1)
        m)).map Prod.fst).Nodup := by
  induction choices generalizing m with
  | nil => exact h
  | cons p rest ih =>
    simp only [List.foldl_cons]
    apply ih
    split
    · exact h
    · exact nodup_keys_dictInsert _ _ _ h

/-! ### Structural lemmas about the risk scorer -/

theorem calculate_risk_score (r : Record) :
    (calculate_risk r).1 = min (hoursSum r * 10) 50 + (symptomCount r : ℚ) * 10 := rfl

theorem calculate_risk_level (r : Record) :
    (calculate_risk r).2 =
      if (calculate_risk r).1 < 30 then "Low"
      else if (calculate_risk r).1 < 60 then "Medium" else "High" := rfl

theorem riskSymptomInd_le_one (r : Record) (c : String) : riskSymptomInd r c ≤ 1 := by
  unfold riskSymptomInd
  split <;> omega

theorem symptomCount_le_five (r : Record) : symptomCount r ≤ 5 := by
  have h1 := riskSymptomInd_le_one r "eye_strain"
  have h2 := riskSymptomInd_le_one r "blurry_vision"
  have h3 := riskSymptomInd_le_one r "dry_eyes"
  have h4 := riskSymptomInd_le_one r "headaches"
  have h5 := riskSymptomInd_le_one r "neck_pain"
  unfold symptomCount symptoms
  simp only [List.map_cons, List.map_nil, List.sum_cons, List.sum_nil]
  omega

theorem hoursSum_eq_of_parse (r : Record) (a b : ℚ)
    (ha : hoursField r "hours_academic" = some a)
    (hb : hoursField r "hours_non_academic" = some b) :
    hoursSum r = a + b := by
  unfold hoursSum
  rw [ha, hb]

/-! ### Lemmas about elementwise application and the chart mutation -/

theorem applyOpt_eq_none {α β : Type} (f : α → Option β) (l : List α) (a : α)
    (ha : a ∈ l) (hf : f a = none) : applyOpt f l = none := by
  induction l with
  | nil => cases ha
  | cons b t ih =>
    simp only [applyOpt]
    rcases List.mem_cons.mp ha with h | h
    · rw [← h, hf]
    · rw [ih h]
      cases f b <;> rfl

theorem applyOpt_zip {α β : Type} (f : α → Option β) :
    ∀ (l : List α) (bs : List β), applyOpt f l = some bs →
      bs.length = l.length ∧ ∀ p ∈ l.zip bs, f p.1 = some p.2 := by
  intro l
  induction l with
  | nil =>
    intro bs h
    simp only [applyOpt] at h
    cases h
    exact ⟨rfl, fun p hp => absurd hp (List.not_mem_nil p)⟩
  | cons a t ih =>
    intro bs h
    simp only [applyOpt] at h
    rcases hfa : f a with _ | b <;> rw [hfa] at h
    · rcases ht : applyOpt f t with _ | bs' <;> rw [ht] at h <;> cases h
    · rcases ht : applyOpt f t with _ | bs' <;> rw [ht] at h <;> cases h
      obtain ⟨hlen, hmem⟩ := ih bs' ht
      refine ⟨by simp [hlen], ?_⟩
      intro p hp
      rw [List.zip_cons_cons] at hp
      rcases List.mem_cons.mp hp with hp | hp
      · rw [hp]
        exact hfa
      · exact hmem p hp

theorem mem_zip_self {α : Type} (l : List α) (p : α × α) (hp : p ∈ l.zip l) :
    p.1 = p.2 := by
  induction l with
  | nil => cases hp
  | cons a t ih =>
    rw [List.zip_cons_cons] at hp
    rcases List.mem_cons.mp hp with h | h
    · rw [h]
    · exact ih h

theorem symptom_score_congr (r r' : Record)
    (h : ∀ c ∈ symptoms, rowGet r c = rowGet r' c) :
    symptom_score r = symptom_score r' := by
  unfold symptom_score
  congr 1
  refine List.map_congr_left ?_
  intro c hc
  unfold chartSymptomInd
  rw [h c hc]

theorem symptoms_ne_bfn : ∀ c ∈ symptoms, c ≠ "break_frequency_numeric" := by decide

theorem chartsRow_some (r r' : Record) (h : chartsRow r = some r') :
    ∃ n, breakNumeric (rowGet r "break_frequency") = some n ∧
      r' = dictInsert (dictInsert r "break_frequency_numeric" (.i n)) "symptom_score"
            (.i (symptom_score (dictInsert r "break_frequency_numeric" (.i n)))) := by
  unfold chartsRow at h
  rcases hb : breakNumeric (rowGet r "break_frequency") with _ | n <;> rw [hb] at h
  · cases h
  · cases h
    exact ⟨n, rfl, rfl⟩

/-! ### Claim theorems -/

/-- C1: for every respondent record whose two hours fields both convert
(`float`) to values `a` and `b`, `calculate_risk` returns
`score = min((a + b) * 10, 50) + 10 * (number of the five symptom fields
whose value is case-insensitively "yes" or "sometimes")`, and the level is
Low for `score < 30`, Medium for `30 ≤ score < 60`, High for `score ≥ 60`
(so exactly 30 is Medium and exactly 60 is High). -/
theorem C1_calculate_risk_formula (r : Record) (a b : ℚ)
    (ha : hoursField r "hours_academic" = some a)
    (hb : hoursField r "hours_non_academic" = some b) :
    (calculate_risk r).1 = min ((a + b) * 10) 50 + 10 * (symptomCount r : ℚ) ∧
    ((calculate_risk r).1 < 30 → (calculate_risk r).2 = "Low") ∧
    (30 ≤ (calculate_risk r).1 ∧ (calculate_risk r).1 < 60 →
      (calculate_risk r).2 = "Medium") ∧
    (60 ≤ (calculate_risk r).1 → (calculate_risk r).2 = "High") := by
  have hs := hoursSum_eq_of_parse r a b ha hb
  have hsc := calculate_risk_score r
  rw [hs] at hsc
  refine ⟨by rw [hsc]; ring, ?_, ?_, ?_⟩ <;> intro h <;> rw [calculate_risk_level r]
  · rw [if_pos h]
  · rw [if_neg (by linarith [h.1]), if_pos h.2]
  · rw [if_neg (by linarith), if_neg (by linarith)]

/-- Witness for C1 on the spec's end-to-end record: both hours parse
(to 2 and 1), the score is min(30, 50) + 10·2 = 50, and the level is
Medium. -/
theorem C1_witness :
    hoursField C1rec "hours_academic" = some 2 ∧
    hoursField C1rec "hours_non_academic" = some 1 ∧
    calculate_risk C1rec = (50, "Medium") := by
  have ha' : hoursField C1rec "hours_academic" = some (partsVal (1, 2, 0, 0, 1, 0)) := rfl
  have hb' : hoursField C1rec "hours_non_academic" = some (partsVal (1, 1, 0, 0, 1, 0)) := rfl
  have hva : partsVal (1, 2, 0, 0, 1, 0) = 2 := by norm_num [partsVal]
  have hvb : partsVal (1, 1, 0, 0, 1, 0) = 1 := by norm_num [partsVal]
  have ha : hoursField C1rec "hours_academic" = some 2 := by rw [ha', hva]
  have hb : hoursField C1rec "hours_non_academic" = some 1 := by rw [hb', hvb]
  have hc := C1_calculate_risk_formula C1rec 2 1 ha hb
  have hcount : symptomCount C1rec = 2 := by decide
  have hscore : (calculate_risk C1rec).1 = 50 := by
    rw [hc.1, hcount]
    norm_num
  have hlevel : (calculate_risk C1rec).2 = "Medium" := by
    refine hc.2.2.1 ?_
    rw [hscore]
    norm_num
  exact ⟨ha, hb, Prod.ext hscore hlevel⟩

/-- C2 counterexample: with mapping {Q1 → timestamp} and a record whose
source columns are Q1 and age, `df.rename` keeps the unmapped column `age`
— it is NOT dropped — and it appears in the output under `age`, which is a
canonical field name. -/
theorem C2_counterexample :
    renameRecord [("Q1", "timestamp")] [("Q1", Val.s "t0"), ("age", Val.s "15")] =
      [("timestamp", Val.s "t0"), ("age", Val.s "15")] ∧
    ("age", Val.s "15") ∈
      renameRecord [("Q1", "timestamp")] [("Q1", Val.s "t0"), ("age", Val.s "15")] ∧
    "age" ∈ STANDARD_COLUMNS ∧
    List.lookup "age" [("Q1", "timestamp")] = none :=
  ⟨by decide, by decide, by decide, by decide⟩

/-- C2 (amended): applying the mapping renames exactly the source columns
present as mapping keys to their canonical names; a source column ABSENT
from the mapping is preserved under its original name (so it appears under
a canonical name exactly when its original name is itself canonical), and
no column is dropped: every field's value and the record length are kept. -/
theorem C2_amended_rename_preserves (m : Mapping) (r : Record) (kv : String × Val)
    (hmem : kv ∈ r) :
    (renameCol m kv.1, kv.2) ∈ renameRecord m r ∧
    (∀ c, m.lookup kv.1 = some c → (c, kv.2) ∈ renameRecord m r) ∧
    (m.lookup kv.1 = none → kv ∈ renameRecord m r) ∧
    (renameRecord m r).length = r.length := by
  have h1 : (renameCol m kv.1, kv.2) ∈ renameRecord m r :=
    List.mem_map_of_mem _ hmem
  refine ⟨h1, ?_, ?_, List.length_map _ _⟩
  · intro c hc
    have hrc : renameCol m kv.1 = c := by rw [renameCol, hc]; rfl
    rwa [hrc] at h1
  · intro hc
    have hrc : renameCol m kv.1 = kv.1 := by rw [renameCol, hc]; rfl
    rw [hrc] at h1
    simpa using h1

/-- Witness for C2 (amended): the mapped column Q1 of the counterexample
record is renamed to `timestamp` with its value kept, and the length is
preserved. -/
theorem C2_witness :
    ("Q1", Val.s "t0") ∈ ([("Q1", Val.s "t0"), ("age", Val.s "15")] : Record) ∧
    ("timestamp", Val.s "t0") ∈
      renameRecord [("Q1", "timestamp")] [("Q1", Val.s "t0"), ("age", Val.s "15")] ∧
    (renameRecord [("Q1", "timestamp")] [("Q1", Val.s "t0"), ("age", Val.s "15")]).length =
      ([("Q1", Val.s "t0"), ("age", Val.s "15")] : Record).length := by
  have h := C2_amended_rename_preserves [("Q1", "timestamp")]
    [("Q1", Val.s "t0"), ("age", Val.s "15")] ("Q1", Val.s "t0") (by decide)
  exact ⟨by decide, h.2.1 "timestamp" (by decide), h.2.2.2⟩

/-- C3 counterexample: the score is not always within [0, 100] and not
always an integer. With `hours_academic = "-1"` the score is −10 < 0;
with `hours_academic = "0.25"` the score is 5/2, not an integer. -/
theorem C3_counterexample :
    (calculate_risk [("hours_academic", Val.s "-1")]).1 = -10 ∧
    (calculate_risk [("hours_academic", Val.s "-1")]).1 < 0 ∧
    (calculate_risk [("hours_academic", Val.s "0.25")]).1 = 5 / 2 ∧
    ¬ ∃ n : ℤ, (calculate_risk [("hours_academic", Val.s "0.25")]).1 = (n : ℚ) := by
  have h1 : hoursSum [("hours_academic", Val.s "-1")] = partsVal (-1, 1, 0, 0, 1, 0) + 0 := rfl
  have h2 : hoursSum [("hours_academic", Val.s "0.25")] = partsVal (1, 0, 25, 2, 1, 0) + 0 := rfl
  have c1 : symptomCount [("hours_academic", Val.s "-1")] = 0 := by decide
  have c2 : symptomCount [("hours_academic", Val.s "0.25")] = 0 := by decide
  have e1 : (calculate_risk [("hours_academic", Val.s "-1")]).1 = -10 := by
    rw [calculate_risk_score, h1, c1]
    norm_num [partsVal]
  have e2 : (calculate_risk [("hours_academic", Val.s "0.25")]).1 = 5 / 2 := by
    rw [calculate_risk_score, h2, c2]
    norm_num [partsVal]
  refine ⟨e1, by rw [e1]; norm_num, e2, ?_⟩
  rintro ⟨n, hn⟩
  rw [e2] at hn
  have h5 : (5 : ℚ) = 2 * (n : ℚ) := by linarith
  have h5' : (5 : ℤ) = 2 * n := by exact_mod_cast h5
  omega

/-- C3 (amended): the score is a rational, not necessarily an integer; it
lies within [0, 100] whenever the effective hours sum (0 on parse failure)
is nonnegative — negative parsed hours values can drive it below 0. -/
theorem C3_amended_score_bounds (r : Record) (h : 0 ≤ hoursSum r) :
    0 ≤ (calculate_risk r).1 ∧ (calculate_risk r).1 ≤ 100 := by
  have hc : symptomCount r ≤ 5 := symptomCount_le_five r
  have hcq : (symptomCount r : ℚ) ≤ 5 := by exact_mod_cast hc
  have hcq0 : (0 : ℚ) ≤ (symptomCount r : ℚ) := by positivity
  rw [calculate_risk_score]
  constructor
  · have hmin : (0 : ℚ) ≤ min (hoursSum r * 10) 50 :=
      le_min (by nlinarith) (by norm_num)
    nlinarith
  · have hmin : min (hoursSum r * 10) 50 ≤ 50 := min_le_right _ _
    nlinarith

/-- Witness for C3 (amended) on a record with 2 academic hours: the hours
sum is nonnegative and the score 20 lies within [0, 100]. -/
theorem C3_witness :
    0 ≤ hoursSum [("hours_academic", Val.s "2")] ∧
    0 ≤ (calculate_risk [("hours_academic", Val.s "2")]).1 ∧
    (calculate_risk [("hours_academic", Val.s "2")]).1 ≤ 100 := by
  have h1 : hoursSum [("hours_academic", Val.s "2")] = partsVal (1, 2, 0, 0, 1, 0) + 0 := rfl
  have hpos : 0 ≤ hoursSum [("hours_academic", Val.s "2")] := by
    rw [h1]
    norm_num [partsVal]
  exact ⟨hpos, C3_amended_score_bounds [("hours_academic", Val.s "2")] hpos⟩

/-- C4: when either hours field is present but fails numeric conversion, the
whole hours contribution is 0 (no partial recovery), `calculate_risk` still
returns a result (the failure is swallowed, no record rejected), and the
symptom points are counted normally: the score is exactly
`10 * symptom_count`. -/
theorem C4_hours_parse_failure (r : Record)
    (h : hoursField r "hours_academic" = none ∨ hoursField r "hours_non_academic" = none) :
    hoursSum r = 0 ∧
    (calculate_risk r).1 = 10 * (symptomCount r : ℚ) ∧
    (calculate_risk r).2 =
      (if 10 * (symptomCount r : ℚ) < 30 then "Low"
       else if 10 * (symptomCount r : ℚ) < 60 then "Medium" else "High") := by
  have hs : hoursSum r = 0 := by
    unfold hoursSum
    rcases h with h | h <;> rw [h]
    cases hoursField r "hours_academic" <;> rfl
  have hsc : (calculate_risk r).1 = 10 * (symptomCount r : ℚ) := by
    rw [calculate_risk_score, hs]
    norm_num
    ring
  refine ⟨hs, hsc, ?_⟩
  rw [calculate_risk_level r, hsc]

/-- Witness for C4: with `hours_academic = "abc"` and a valid
`hours_non_academic = "5"`, conversion of the academic field fails, the
hours contribution is 0, and the score is 10 for the one symptom. -/
theorem C4_witness :
    hoursField C4rec "hours_academic" = none ∧
    hoursField C4rec "hours_non_academic" = some (partsVal (1, 5, 0, 0, 1, 0)) ∧
    hoursSum C4rec = 0 ∧
    calculate_risk C4rec = (10, "Low") := by
  have ha : hoursField C4rec "hours_academic" = none := rfl
  have hb : hoursField C4rec "hours_non_academic" = some (partsVal (1, 5, 0, 0, 1, 0)) := rfl
  have hc := C4_hours_parse_failure C4rec (Or.inl ha)
  have hcount : symptomCount C4rec = 1 := by decide
  have hscore : (calculate_risk C4rec).1 = 10 := by
    rw [hc.2.1, hcount]
    norm_num
  have hlevel : (calculate_risk C4rec).2 = "Low" := by
    rw [hc.2.2, hcount]
    norm_num
  exact ⟨ha, hb, hc.1, Prod.ext hscore hlevel⟩

/-- C5: for every mapping `m` and store state, `save(m)` followed by
`load()` returns exactly `m`; after `reset()`, `load()` reports absence
(no mapping exists); and a subsequent `save` makes `load` return the new
mapping again. -/
theorem C5_mapping_roundtrip (m : Mapping) (st : MapStore) :
    load_mapping (save_mapping m st) = some m ∧
    load_mapping (reset_mapping st) = none ∧
    load_mapping (save_mapping m (reset_mapping st)) = some m :=
  ⟨rfl, rfl, rfl⟩

/-- C6: the interactively built mapping is keyed by source column and its
keys are unique — each source column maps to at most one canonical field —
and when one source column is chosen for several canonical fields, the last
assignment silently wins: looking the column up yields the last canonical
field it was chosen for. -/
theorem C6_mapping_keys_unique_last_wins (choices : List (String × String)) (src : String)
    (hsrc : src ≠ "-- skip --") :
    ((build_mapping choices).map Prod.fst).Nodup ∧
    (build_mapping choices).lookup src = lastChosen choices src := by
  refine ⟨build_mapping_nodup_aux choices [] List.nodup_nil, ?_⟩
  have h := build_mapping_lookup_aux choices src hsrc []
  simpa [build_mapping, lastChosen] using h

/-- Witness for C6: choosing source column "Col A" for both `timestamp` and
`age` leaves unique keys and maps "Col A" to `age`, the later assignment. -/
theorem C6_witness :
    ("Col A" : String) ≠ "-- skip --" ∧
    ((build_mapping [("timestamp", "Col A"), ("age", "Col A")]).map Prod.fst).Nodup ∧
    (build_mapping [("timestamp", "Col A"), ("age", "Col A")]).lookup "Col A" =
      lastChosen [("timestamp", "Col A"), ("age", "Col A")] "Col A" ∧
    (build_mapping [("timestamp", "Col A"), ("age", "Col A")]).lookup "Col A" =
      some "age" := by
  have h := C6_mapping_keys_unique_last_wins [("timestamp", "Col A"), ("age", "Col A")]
    "Col A" (by decide)
  exact ⟨by decide, h.1, h.2, by decide⟩

/-- C7: when the summary-statistic (mean) computation fails — e.g. a
non-numeric hours cell — the report replaces the two average lines with the
single placeholder "Average hours not available" and generation still
completes: one risk line per respondent (identifier, score, level) followed
by one page per chart. -/
theorem C7_pdf_placeholder_on_mean_failure (df : Df) (charts : List String)
    (h : summaryStats df = none) :
    generate_pdf df charts =
      [.title "Computer Vision Syndrome Survey Report", .header "Summary Statistics:",
       .placeholder "Average hours not available", .header "Student Risk Summary:"]
      ++ df.rows.enum.map (fun p => riskLine p.1 p.2)
      ++ charts.map .chartPage ∧
    (df.rows.enum.map (fun p => riskLine p.1 p.2)).length = df.rows.length := by
  unfold generate_pdf
  rw [h]
  exact ⟨by simp, by simp⟩

/-- Witness for C7: on `C7df` the mean computation fails (float("abc")
raises), the placeholder is emitted, and the body still carries the one
risk line and the chart page. -/
theorem C7_witness :
    summaryStats C7df = none ∧
    generate_pdf C7df ["symptoms"] =
      [.title "Computer Vision Syndrome Survey Report", .header "Summary Statistics:",
       .placeholder "Average hours not available", .header "Student Risk Summary:"]
      ++ C7df.rows.enum.map (fun p => riskLine p.1 p.2)
      ++ [.chartPage "symptoms"] ∧
    (C7df.rows.enum.map (fun p => riskLine p.1 p.2)).length = C7df.rows.length := by
  have h : summaryStats C7df = none := rfl
  have hc := C7_pdf_placeholder_on_mean_failure C7df ["symptoms"] h
  exact ⟨h, hc.1, hc.2⟩

/-- C8: chart generation mutates the input rows only by adding the two
helper fields `break_frequency_numeric` (the converted break frequency) and
`symptom_score` (the "yes"-only symptom count); every other field of every
record is unchanged, and when the break-frequency column is absent the rows
are untouched entirely. -/
theorem C8_charts_frame (df df' : Df) (h : generate_charts df = some df') :
    df'.rows.length = df.rows.length ∧
    ∀ p ∈ df.rows.zip df'.rows,
      (∀ k, k ≠ "break_frequency_numeric" → k ≠ "symptom_score" →
        rowGet p.2 k = rowGet p.1 k) ∧
      (df.columns.contains "break_frequency" = true →
        rowGet p.2 "break_frequency_numeric" =
          (breakNumeric (rowGet p.1 "break_frequency")).map Val.i ∧
        rowGet p.2 "symptom_score" = some (.i (symptom_score p.1))) ∧
      (df.columns.contains "break_frequency" = false → p.2 = p.1) := by
  unfold generate_charts at h
  by_cases hg :
      (symptoms.all (fun c => df.columns.contains c) && df.columns.contains "devices") = true
  case neg => rw [if_neg hg] at h; cases h
  rw [if_pos hg] at h
  by_cases hbf : df.columns.contains "break_frequency" = true
  case neg =>
    rw [if_neg hbf] at h
    cases h
    refine ⟨rfl, ?_⟩
    intro p hp
    have hpq : p.1 = p.2 := mem_zip_self _ p hp
    refine ⟨fun k _ _ => by rw [hpq], fun hc => absurd hc hbf, fun _ => hpq.symm⟩
  rw [if_pos hbf] at h
  rcases happ : applyOpt chartsRow df.rows with _ | rows' <;> rw [happ] at h
  · cases h
  · cases h
    obtain ⟨hlen, hmem⟩ := applyOpt_zip chartsRow df.rows rows' happ
    refine ⟨hlen, ?_⟩
    intro p hp
    obtain ⟨n, hbn, hr'⟩ := chartsRow_some p.1 p.2 (hmem p hp)
    have hbn' : breakNumeric (List.lookup "break_frequency" p.1) = some n := hbn
    have hss : symptom_score (dictInsert p.1 "break_frequency_numeric" (Val.i n)) =
        symptom_score p.1 := by
      apply symptom_score_congr
      intro c hc
      unfold rowGet
      rw [lookup_dictInsert, if_neg (symptoms_ne_bfn c hc)]
    refine ⟨?_, ?_, ?_⟩
    · intro k hk1 hk2
      rw [hr']
      unfold rowGet
      rw [lookup_dictInsert, if_neg hk2, lookup_dictInsert, if_neg hk1]
    · intro _
      constructor
      · rw [hr']
        unfold rowGet
        rw [lookup_dictInsert, if_neg (by decide), lookup_dictInsert, if_pos rfl, hbn']
        rfl
      · rw [hr']
        unfold rowGet
        rw [lookup_dictInsert, if_pos rfl, hss]
    · intro hc
      rw [hc] at hbf
      exact Bool.noConfusion hbf

/-- Witness for C8: `generate_charts` on `C8df` succeeds with `C8df'`; the
row keeps `eye_strain` unchanged and gains exactly the two helper fields. -/
theorem C8_witness :
    generate_charts C8df = some C8df' ∧
    C8df'.rows.length = C8df.rows.length ∧
    rowGet C8row' "eye_strain" =
      rowGet [("eye_strain", .s "Yes"), ("devices", .s "Phone"),
        ("break_frequency", .s "3+ times")] "eye_strain" ∧
    rowGet C8row' "break_frequency_numeric" =
      (breakNumeric (rowGet [("eye_strain", .s "Yes"), ("devices", .s "Phone"),
        ("break_frequency", .s "3+ times")] "break_frequency")).map Val.i ∧
    rowGet C8row' "symptom_score" =
      some (.i (symptom_score [("eye_strain", .s "Yes"), ("devices", .s "Phone"),
        ("break_frequency", .s "3+ times")])) := by
  have h := C8_charts_frame C8df C8df' (by decide)
  have hp := h.2 ([("eye_strain", .s "Yes"), ("devices", .s "Phone"),
    ("break_frequency", .s "3+ times")], C8row') (by decide)
  exact ⟨by decide, h.1, hp.1 "eye_strain" (by decide) (by decide),
    (hp.2.1 (by decide)).1, (hp.2.1 (by decide)).2⟩

/-- C9: the break-frequency conversion is total only for missing values,
which map to 0; a present cell whose cleaned string — after removing the
"+" and "times" substrings and stripping surrounding whitespace — is not an
integer literal makes `int()` raise, and `generate_charts` fails with the
exception unhandled. -/
theorem C9_break_conversion_unhandled (df : Df) (r : Record) (v : Val)
    (hr : r ∈ df.rows)
    (hv : rowGet r "break_frequency" = some v)
    (hbad : pyInt (cleanedBreak v) = none)
    (hcol : df.columns.contains "break_frequency" = true) :
    breakNumeric none = some 0 ∧
    breakNumeric (rowGet r "break_frequency") = none ∧
    generate_charts df = none := by
  have hbn : breakNumeric (rowGet r "break_frequency") = none := by
    rw [hv]
    exact hbad
  refine ⟨rfl, hbn, ?_⟩
  unfold generate_charts
  by_cases hg :
      (symptoms.all (fun c => df.columns.contains c) && df.columns.contains "devices") = true
  · rw [if_pos hg, if_pos hcol,
      applyOpt_eq_none chartsRow df.rows r hr (by unfold chartsRow; rw [hbn]; rfl)]
    rfl
  · rw [if_neg hg]

/-- Witness for C9: the "2x" cell is present, its cleaned string fails
`int()`, and `generate_charts` on `C9df` fails; a missing cell still maps
to 0. -/
theorem C9_witness :
    ([("break_frequency", Val.s "2x")] : Record) ∈ C9df.rows ∧
    rowGet [("break_frequency", Val.s "2x")] "break_frequency" = some (.s "2x") ∧
    pyInt (cleanedBreak (.s "2x")) = none ∧
    C9df.columns.contains "break_frequency" = true ∧
    breakNumeric none = some 0 ∧
    generate_charts C9df = none := by
  have h := C9_break_conversion_unhandled C9df [("break_frequency", Val.s "2x")] (.s "2x")
    (by decide) (by decide) (by decide) (by decide)
  exact ⟨by decide, by decide, by decide, by decide, h.1, h.2.2⟩

/-- C10: a symptom value that lower-cases to "sometimes" counts toward the
risk score — its risk indicator is 1, worth 10 points in `calculate_risk`'s
`symptom_count * 10` — but counts as 0 in both charts: the scatter plot's
per-record symptom count (indicator 0) and the symptom-frequency bar chart
(`barYes` false, so the row adds nothing to the column's count). -/
theorem C10_sometimes_risk_not_charts (r : Record) (c : String) (v : String)
    (hv : rowGet r c = some (.s v)) (hlow : pyLower v = "sometimes") :
    riskSymptomInd r c = 1 ∧ chartSymptomInd r c = 0 ∧ barYes r c = false := by
  unfold riskSymptomInd chartSymptomInd barYes
  rw [hv]
  simp only [Option.getD_some, pyStr, hlow]
  refine ⟨by simp, by simp, by simp⟩

/-- Witness for C10: the cell value "Sometimes" on `dry_eyes` has risk
indicator 1 but chart indicators 0. -/
theorem C10_witness :
    rowGet [("dry_eyes", Val.s "Sometimes")] "dry_eyes" = some (.s "Sometimes") ∧
    pyLower "Sometimes" = "sometimes" ∧
    riskSymptomInd [("dry_eyes", Val.s "Sometimes")] "dry_eyes" = 1 ∧
    chartSymptomInd [("dry_eyes", Val.s "Sometimes")] "dry_eyes" = 0 ∧
    barYes [("dry_eyes", Val.s "Sometimes")] "dry_eyes" = false := by
  have h := C10_sometimes_risk_not_charts [("dry_eyes", Val.s "Sometimes")] "dry_eyes"
    "Sometimes" (by decide) (by decide)
  exact ⟨by decide, by decide, h.1, h.2.1, h.2.2⟩

end CVS
